import Mathlib

/-!
Verification of the transactional state-management core of
`src/pylib/anki/collection.py`: the save/undo checkpoint system and the
scheduler-version migration logic.

The embedding translates the Python methods of the `Collection` class into
pure Lean functions over an explicit `ColState`.  Python exceptions are
modelled with `Except (PyError × ColState) _`, where the error carries the
state at the moment the exception was raised, so that partial mutation
before a raise stays observable.  External collaborators that are not part
of `src/` (the `DBProxy` storage layer, the scheduler implementations, the
note/tag helpers, the confirmation hook, the queue constants of
`anki/consts.py`) are modelled from the specification, as noted on each
definition.
-/

/-- A card row, as read and written by the undo code: `id`, `nid` (note id),
`queue`, `type`, `mod`, `usn`, plus an opaque `payload` standing for the
remaining columns of the row, so that the full-row overwrite performed by
`Card.flush` is meaningful.  `copy.copy(card)` in `markReview` is a plain
value copy of this row. -/
structure CardRow where
  id : Int
  nid : Int
  queue : Int
  type : Int
  mod : Int
  usn : Int
  payload : Int
  deriving DecidableEq, Repr

/-- Modelled from the spec: the storage layer (`DBProxy`, not under `src/`)
exposes a local mutation flag `mod`, the `last_begin_at` timestamp recorded
when the current transaction began, and `begin`/`commit`/`rollback`.  The
counters `commits`, `rollbacks`, `begins` are ghost instrumentation (the
commit-count probe of the spec), and `trxDepth` counts the open
transactions (the single-writer model keeps it at 0 or 1). -/
structure DBState where
  mod : Bool
  lastBeginAt : Int
  commits : Nat
  rollbacks : Nat
  begins : Nat
  trxDepth : Nat
  deriving DecidableEq, Repr

/-- The undo record of the Checkpoint Log.  In the source it is
`self._undo`: `None`, or `[1, "Review", [card, ...], wasLeech]`, or
`[2, name]`.  The leading integer tag becomes the constructor. -/
inductive UndoRecord where
  | empty
  | review (entries : List CardRow) (wasLeech : Bool)
  | checkpoint (label : String)
  deriving DecidableEq, Repr

/-- Python exceptions raised by this code: `TypeError` (subscripting
`None`), `IndexError` (popping or indexing out of range), `AnkiError` with
its kind string, and a generic `Exception` with its message. -/
inductive PyError where
  | typeError
  | indexError
  | ankiError (kind : String)
  | exception (msg : String)
  deriving DecidableEq, Repr

/-- The collection state.  `colMod`, `scm`, `ls` are the `mod`, `scm`, `ls`
columns of the `col` row; `schedVerConf` is the `"schedVer"` configuration
entry; `activeSched` is the version of the scheduler instance held in
`self.sched`; `notes` maps a note id to its tag list; `revlog` is the list
of `(id, cid)` review-log rows; `statNew`/`statLrn`/`statRev` and `reps`
are the scheduler statistics touched by review undo (modelled from the
spec, the scheduler is external); `migrations` is a ghost log of the
migration routines invoked (1 for `moveToV1`, 2 for `moveToV2`). -/
structure ColState where
  undo : UndoRecord
  db : DBState
  colMod : Int
  scm : Int
  ls : Int
  usnCol : Int
  server : Bool
  schedVerConf : Option Nat
  activeSched : Nat
  cards : List CardRow
  notes : List (Int × List String)
  revlog : List (Int × Int)
  reps : Int
  statNew : Int
  statLrn : Int
  statRev : Int
  lastSave : Int
  migrations : List Nat
  deriving DecidableEq, Repr

/-- Modelled from the spec: the external collaborators consumed through
narrow contracts — the per-card scheduler configuration lookup used to
detect preview cards (`dyn`, `resched`). -/
structure SchedConf where
  dyn : Bool
  resched : Bool

/-- Modelled from the spec: the environment of external scheduler
routines — `sched._cardConf` keyed by card id, and the bidirectional
`moveToV1`/`moveToV2` one-shot bulk transformations over the card
queue/state columns (they act on the cards table only). -/
structure Env where
  cardConf : Int → SchedConf
  migrateCardsToV1 : List CardRow → List CardRow
  migrateCardsToV2 : List CardRow → List CardRow

/-! ## Storage-layer primitives (modelled from the spec, `DBProxy` is external) -/

/-- `db.begin()`: opens a transaction and records the current `col.mod`
as `last_begin_at` for the dirty check. -/
def dbBegin (st : ColState) : ColState :=
  { st with db := { st.db with lastBeginAt := st.colMod,
                               begins := st.db.begins + 1,
                               trxDepth := st.db.trxDepth + 1 } }

/-- `db.commit()`: commits and closes the open transaction. -/
def dbCommit (st : ColState) : ColState :=
  { st with db := { st.db with commits := st.db.commits + 1, trxDepth := 0 } }

/-- `db.rollback()`: rolls back and closes the open transaction. -/
def dbRollback (st : ColState) : ColState :=
  { st with db := { st.db with rollbacks := st.db.rollbacks + 1, trxDepth := 0 } }

/-- The `mod` property setter: `update col set mod=?` (a write marks the
storage proxy dirty). -/
def setColMod (v : Int) (st : ColState) : ColState :=
  { st with colMod := v, db := { st.db with mod := true } }

/-- The `scm` property setter: `update col set scm=?`. -/
def setScm (v : Int) (st : ColState) : ColState :=
  { st with scm := v, db := { st.db with mod := true } }

/-! ## Notes and tags (modelled from the spec, `anki/notes.py` is external) -/

/-- Modelled from the spec: the tag list of the note with the given id.  A
missing note behaves as having no tags (a consistent collection never
holds a card whose note row is absent). -/
def noteTags (st : ColState) (nid : Int) : List String :=
  (st.notes.lookup nid).getD []

/-- Modelled from the spec: `note.hasTag(tag)`. -/
def noteHasTag (st : ColState) (nid : Int) (tag : String) : Bool :=
  (noteTags st nid).contains tag

/-- Modelled from the spec: `note.delTag(tag)` followed by `note.flush()`
(the flush writes through the storage proxy, marking it dirty). -/
def noteDelTag (st : ColState) (nid : Int) (tag : String) : ColState :=
  { st with notes := st.notes.map (fun p => if p.1 == nid then (p.1, p.2.filter (· != tag)) else p),
            db := { st.db with mod := true } }

/-- Modelled from the spec: `card.flush()` restores the entire card row
(full overwrite of the row with the given id). -/
def cardFlush (st : ColState) (c : CardRow) : ColState :=
  { st with cards := st.cards.map (fun r => if r.id == c.id then c else r),
            db := { st.db with mod := true } }

/-! ## Collection methods translated from the source -/

/-- `Collection.usn`: `self._usn if self.server else -1`. -/
def Collection.usn (st : ColState) : Int :=
  if st.server then st.usnCol else -1

/-- `Collection.clearUndo`: `self._undo = None`. -/
def Collection.clearUndo (st : ColState) : ColState :=
  { st with undo := .empty }

/-- The translated label `self.tr(TR.SCHEDULING_REVIEW)` stored in a
review undo record (translation is external; the value is opaque to the
logic). -/
def SCHEDULING_REVIEW : String := "Review"

/-- `Collection.undoName`: `None` when `self._undo` is falsy, else
`self._undo[1]` (the review label or the checkpoint name). -/
def Collection.undoName (st : ColState) : Option String :=
  match st.undo with
  | .empty => none
  | .review _ _ => some SCHEDULING_REVIEW
  | .checkpoint label => some label

/-- Python truthiness of the optional `name` argument: `None` and the
empty string are falsy. -/
def pyTruthy (name : Option String) : Bool :=
  match name with
  | none => false
  | some s => s != ""

/-- `Collection._markOp(name)`: with a truthy name, `self._undo = [2, name]`;
otherwise clear the record only when it is a checkpoint (saving disables an
old checkpoint, but not review undo). -/
def Collection._markOp (name : Option String) (u : UndoRecord) : UndoRecord :=
  if pyTruthy name then .checkpoint (name.getD "")
  else
    match u with
    | .checkpoint _ => .empty
    | u => u

/-- `Collection.modified_after_begin`: `self.db.last_begin_at != self.mod`. -/
def Collection.modified_after_begin (st : ColState) : Bool :=
  st.db.lastBeginAt != st.colMod

/-- `Collection.save(name, mod, trx)`: commit when dirty (stamping
`col.mod` with the caller-supplied value or the current time `now`,
clearing the proxy dirty flag, and reopening a transaction when `trx`);
when clean and `trx` is false, roll back instead; then record the undo
checkpoint via `_markOp` and stamp `_lastSave` with `tnow`
(`time.time()`). -/
def Collection.save (name : Option String) (modArg : Option Int) (trx : Bool)
    (now tnow : Int) (st : ColState) : ColState :=
  let st1 :=
    if st.db.mod || Collection.modified_after_begin st then
      let a := setColMod (modArg.getD now) st
      let b := dbCommit a
      let c := { b with db := { b.db with mod := false } }
      if trx then dbBegin c else c
    else if !trx then dbRollback st
    else st
  let st2 := { st1 with undo := Collection._markOp name st1.undo }
  { st2 with lastSave := tnow }

/-- `Collection.schemaChanged`: `self.scm > self.ls`. -/
def Collection.schemaChanged (st : ColState) : Bool :=
  decide (st.scm > st.ls)

/-- `Collection.modSchema(check)`: when the schema has not diverged and
`check` holds, gate on the confirmation hook (`hookProceed` is the result
of `hooks.schema_will_change`, modelled from the spec) and raise
`AnkiError("abortSchemaMod")` on refusal; otherwise stamp `scm` and
save. -/
def Collection.modSchema (check : Bool) (hookProceed : Bool) (now tnow : Int)
    (st : ColState) : Except (PyError × ColState) ColState :=
  if !(Collection.schemaChanged st) && check && !hookProceed then
    .error (.ankiError "abortSchemaMod", st)
  else
    .ok (Collection.save none none true now tnow (setScm now st))

/-- `Collection.supportedSchedulerVersions = (1, 2)`. -/
def Collection.supportedSchedulerVersions : List Nat := [1, 2]

/-- `Collection.schedVer`: the `"schedVer"` configuration entry,
defaulting to 1; an unsupported stored value raises. -/
def Collection.schedVer (st : ColState) : Except PyError Nat :=
  let ver := st.schedVerConf.getD 1
  if ver ∈ Collection.supportedSchedulerVersions then .ok ver
  else .error (.exception "Unsupported scheduler version")

/-- `Collection._loadScheduler`: instantiate the scheduler implementation
matching `schedVer()` (the instance is modelled by its version number). -/
def Collection._loadScheduler (st : ColState) : Except PyError ColState :=
  match Collection.schedVer st with
  | .error e => .error e
  | .ok ver => .ok { st with activeSched := ver }

/-- Modelled from the spec: `V2Scheduler.moveToV1` (in `anki/schedv2.py`,
not under `src/`), a one-shot bulk transformation over the card
queue/state columns; the bulk SQL update marks the storage proxy dirty.
The ghost `migrations` log records the invocation. -/
def moveToV1 (env : Env) (st : ColState) : ColState :=
  { st with cards := env.migrateCardsToV1 st.cards,
            db := { st.db with mod := true },
            migrations := st.migrations ++ [1] }

/-- Modelled from the spec: `V2Scheduler.moveToV2` (in `anki/schedv2.py`,
not under `src/`), the inverse bulk transformation. -/
def moveToV2 (env : Env) (st : ColState) : ColState :=
  { st with cards := env.migrateCardsToV2 st.cards,
            db := { st.db with mod := true },
            migrations := st.migrations ++ [2] }

/-- Modelled from the spec: `self.conf["schedVer"] = ver` — the
configuration manager is external; a configuration write marks the
collection modified automatically. -/
def confSetSchedVer (ver : Nat) (st : ColState) : ColState :=
  { st with schedVerConf := some ver, db := { st.db with mod := true } }

/-! ## Review undo -/

/-- Modelled from the spec: the queue constants of `anki/consts.py` (not
under `src/`): manually buried -3, sibling buried -2, suspended -1, new 0,
learning 1, review 2, day (re)learning 3, preview 4. -/
def QUEUE_TYPE_LRN : Int := 1

/-- Day (re)learning queue constant. -/
def QUEUE_TYPE_DAY_LEARN_RELEARN : Int := 3

/-- Preview queue constant. -/
def QUEUE_TYPE_PREVIEW : Int := 4

/-- `Collection.markReview(card)`: keep the entries of an existing review
record, drop anything else, and store a fresh review record whose entry
list is the old entries plus a copy of the card and whose `wasLeech` flag
is the leech status of the note of the card being marked. -/
def Collection.markReview (st : ColState) (card : CardRow) : ColState :=
  let old : List CardRow :=
    match st.undo with
    | .review entries _ => entries
    | _ => []
  let wasLeech := noteHasTag st card.nid "leech"
  { st with undo := .review (old ++ [card]) wasLeech }

/-- Python indexing of a three-element tuple: valid indices are -3 to 2,
anything else raises `IndexError`. -/
def pyTupleIndex3 (a b c : String) (n : Int) : Option String :=
  if n = 0 ∨ n = -3 then some a
  else if n = 1 ∨ n = -2 then some b
  else if n = 2 ∨ n = -1 then some c
  else none

/-- Modelled from the spec: `sched._updateStats(card, bucket, delta)`
adjusts the daily count of the named bucket. -/
def updateStats (bucket : String) (delta : Int) (st : ColState) : ColState :=
  if bucket == "new" then { st with statNew := st.statNew + delta }
  else if bucket == "lrn" then { st with statLrn := st.statLrn + delta }
  else { st with statRev := st.statRev + delta }

/-- The review-log row with the greatest id among those of the given card
(`select id from revlog where cid = ? order by id desc limit 1`). -/
def lastRevlogId (revlog : List (Int × Int)) (cid : Int) : Option Int :=
  ((revlog.filter (fun e => e.2 == cid)).map (fun e => e.1)).max?

/-- `delete from revlog where id = ?`: with a `None` id the delete matches
no row. -/
def deleteRevlog (last : Option Int) (revlog : List (Int × Int)) : List (Int × Int) :=
  match last with
  | none => revlog
  | some i => revlog.filter (fun e => e.1 != i)

/-- Sibling restore: `update cards set queue=type, mod=?, usn=? where
queue=-2 and nid=?`. -/
def restoreSiblings (now usnv nid : Int) (cards : List CardRow) : List CardRow :=
  cards.map fun r =>
    if r.queue == -2 && r.nid == nid then { r with queue := r.type, mod := now, usn := usnv }
    else r

/-- `Collection._undoReview`: pop the most recent snapshot (in place, so a
remaining non-empty entry list keeps the shared `wasLeech` flag), clear
the record when the list empties, remove the leech tag from the note of
the popped card when the shared flag is clear and the note now has the
tag, flush the snapshot over the card row, delete the most recent
review-log entry of the card unless its deck is a non-rescheduling
filtered deck, restore sibling-buried cards of the same note, decrement
the daily count of the bucket given by the queue of the snapshot (with day
learning and preview folded into learning), decrement the session
repetition counter, and return the id of the restored card.  On a
`None` or checkpoint record the subscripting raises. -/
def Collection._undoReview (env : Env) (now : Int) (st : ColState) :
    Except (PyError × ColState) (Int × ColState) :=
  match st.undo with
  | .empty => .error (.typeError, st)
  | .checkpoint _ => .error (.indexError, st)
  | .review entries wasLeech =>
    match entries.getLast? with
    | none => .error (.indexError, st)
    | some c =>
      let rest := entries.dropLast
      let st1 := if rest.isEmpty then Collection.clearUndo st
                 else { st with undo := .review rest wasLeech }
      let st2 := if !wasLeech && noteHasTag st1 c.nid "leech"
                 then noteDelTag st1 c.nid "leech" else st1
      let st3 := cardFlush st2 c
      let conf := env.cardConf c.id
      let previewing := conf.dyn && !conf.resched
      let st4 :=
        if previewing then st3
        else
          let last := lastRevlogId st3.revlog c.id
          { st3 with revlog := deleteRevlog last st3.revlog,
                     db := { st3.db with mod := true } }
      let st5 := { st4 with
          cards := restoreSiblings now (Collection.usn st4) c.nid st4.cards,
          db := { st4.db with mod := true } }
      let n := if c.queue == QUEUE_TYPE_DAY_LEARN_RELEARN || c.queue == QUEUE_TYPE_PREVIEW
               then QUEUE_TYPE_LRN else c.queue
      match pyTupleIndex3 "new" "lrn" "rev" n with
      | none => .error (.indexError, st5)
      | some bucket =>
        let st6 := updateStats bucket (-1) st5
        .ok (c.id, { st6 with reps := st6.reps - 1 })

/-- `Collection.rollback`: `db.rollback()` then `db.begin()`. -/
def Collection.rollback (st : ColState) : ColState :=
  dbBegin (dbRollback st)

/-- `Collection._undoOp`: roll back the open transaction (reopening a
fresh one) and clear the record. -/
def Collection._undoOp (st : ColState) : ColState :=
  Collection.clearUndo (Collection.rollback st)

/-- `Collection.undo`: dispatch on the leading tag of `self._undo`; with
`self._undo = None` the subscript `self._undo[0]` raises `TypeError`.  The
review branch returns the restored card id, the checkpoint branch returns
nothing. -/
def Collection.undo (env : Env) (now : Int) (st : ColState) :
    Except (PyError × ColState) (Option Int × ColState) :=
  match st.undo with
  | .empty => .error (.typeError, st)
  | .review _ _ =>
    match Collection._undoReview env now st with
    | .error e => .error e
    | .ok (cid, st1) => .ok (some cid, st1)
  | .checkpoint _ => .ok (none, Collection._undoOp st)

/-- `Collection.changeSchedulerVer(ver)`: return when already at `ver`;
raise on an unsupported target; otherwise gate through
`modSchema(check=True)`, clear the undo record, invoke the migration
routine matching the target, persist the new version (`setMod()` is a
no-op in the source), and reload the scheduler. -/
def Collection.changeSchedulerVer (env : Env) (hookProceed : Bool)
    (now tnow : Int) (ver : Nat) (st : ColState) :
    Except (PyError × ColState) ColState :=
  match Collection.schedVer st with
  | .error e => .error (e, st)
  | .ok cur =>
    if ver == cur then .ok st
    else if ver ∉ Collection.supportedSchedulerVersions then
      .error (.exception "Unsupported scheduler version", st)
    else
      match Collection.modSchema true hookProceed now tnow st with
      | .error es => .error es
      | .ok st1 =>
        let st2 := Collection.clearUndo st1
        let st3 := if ver == 1 then moveToV1 env st2 else moveToV2 env st2
        let st4 := confSetSchedVer ver st3
        match Collection._loadScheduler st4 with
        | .error e => .error (e, st4)
        | .ok st5 => .ok st5

/-! ## Iteration helpers and concrete fixtures -/

/-- Fold a sequence of `markReview` calls over the state. -/
def markReviews (st : ColState) (cs : List CardRow) : ColState :=
  cs.foldl Collection.markReview st

/-- Run `n` undo calls, collecting the returned card ids; `none` when an
undo raises or a checkpoint undo intervenes. -/
def runUndos (env : Env) (now : Int) : Nat → ColState → Option (List Int × ColState)
  | 0, st => some ([], st)
  | n + 1, st =>
    match Collection.undo env now st with
    | .ok (some cid, st1) =>
      match runUndos env now n st1 with
      | some (ids, st2) => some (cid :: ids, st2)
      | none => none
    | _ => none

/-- Two consecutive successful undo calls, returning the final state. -/
def undoTwice (env : Env) (now : Int) (st : ColState) : Option ColState :=
  match Collection.undo env now st with
  | .ok (_, st1) =>
    match Collection.undo env now st1 with
    | .ok (_, st2) => some st2
    | .error _ => none
  | .error _ => none

/-- The shared `wasLeech` flag of a review record, when present. -/
def reviewFlag : UndoRecord → Option Bool
  | .review _ b => some b
  | _ => none

/-- A queue value the review-undo bucket update accepts without raising
`IndexError`: the real queue constants -3 to 4. -/
def validUndoQueue (q : Int) : Bool :=
  (q == QUEUE_TYPE_DAY_LEARN_RELEARN || q == QUEUE_TYPE_PREVIEW) || (-3 ≤ q && q ≤ 2)

/-- A scheduler environment for concrete runs: no preview decks, identity
migrations. -/
def env0 : Env :=
  { cardConf := fun _ => { dyn := false, resched := true },
    migrateCardsToV1 := fun cs => cs,
    migrateCardsToV2 := fun cs => cs }

/-- A small base collection state for concrete runs. -/
def baseSt : ColState :=
  { undo := .empty,
    db := { mod := false, lastBeginAt := 0, commits := 0, rollbacks := 0,
            begins := 0, trxDepth := 1 },
    colMod := 0, scm := 0, ls := 0, usnCol := 0, server := false,
    schedVerConf := some 1, activeSched := 1,
    cards := [], notes := [], revlog := [],
    reps := 0, statNew := 0, statLrn := 0, statRev := 0,
    lastSave := 0, migrations := [] }

/-- Concrete cards for counterexamples and bug traces: `cardA` belongs to
note 1, which carries the leech tag; `cardB` belongs to note 2, which does
not. -/
def bugCardA : CardRow := { id := 101, nid := 1, queue := 2, type := 2, mod := 0, usn := 0, payload := 7 }

/-- The second concrete card, on an untagged note. -/
def bugCardB : CardRow := { id := 202, nid := 2, queue := 2, type := 2, mod := 0, usn := 0, payload := 8 }

/-- A concrete collection holding both cards, with note 1 already tagged
as a leech before any review. -/
def bugSt0 : ColState :=
  { baseSt with notes := [(1, ["leech"]), (2, [])],
                cards := [bugCardA, bugCardB],
                revlog := [(10, 101), (20, 202)] }

/-! ## Preservation lemmas for the undo field -/

/-- Deleting a note tag does not touch the undo record. -/
theorem undo_noteDelTag (st : ColState) (nid : Int) (tag : String) :
    (noteDelTag st nid tag).undo = st.undo := rfl

/-- Flushing a card row does not touch the undo record. -/
theorem undo_cardFlush (st : ColState) (c : CardRow) :
    (cardFlush st c).undo = st.undo := rfl

/-- Adjusting a statistics bucket does not touch the undo record. -/
theorem undo_updateStats (bucket : String) (delta : Int) (st : ColState) :
    (updateStats bucket delta st).undo = st.undo := by
  unfold updateStats
  split
  · rfl
  · split <;> rfl

/-! ## Claim C2: checkpoint marking rules -/

/-- C2: with a non-empty label, `_markOp` replaces the current record with
a checkpoint carrying that label, dropping any review history; with no
label, the record becomes empty by clearing exactly when it was a
checkpoint, and an existing review record (entries and flag) is left
untouched. -/
theorem markOp_checkpoint_rules (u : UndoRecord) (s : String) (hs : s ≠ "") :
    Collection._markOp (some s) u = .checkpoint s
    ∧ ((Collection._markOp none u = .empty ∧ u ≠ .empty) ↔ ∃ t, u = .checkpoint t)
    ∧ (∀ es b, u = .review es b → Collection._markOp none u = u) := by
  refine ⟨?_, ?_, ?_⟩
  · simp [Collection._markOp, pyTruthy, hs]
  · cases u <;> simp [Collection._markOp, pyTruthy]
  · rintro es b rfl
    simp [Collection._markOp, pyTruthy]

/-- Witness for C2 at a concrete review record and a concrete label. -/
theorem markOp_checkpoint_rules_witness :
    Collection._markOp (some "Rename Deck") (.review [bugCardA] true) = .checkpoint "Rename Deck"
    ∧ ((Collection._markOp none (.review [bugCardA] true) = .empty
          ∧ (UndoRecord.review [bugCardA] true) ≠ .empty)
        ↔ ∃ t, (UndoRecord.review [bugCardA] true) = .checkpoint t)
    ∧ (∀ es b, (UndoRecord.review [bugCardA] true) = .review es b →
        Collection._markOp none (.review [bugCardA] true) = .review [bugCardA] true) :=
  markOp_checkpoint_rules (.review [bugCardA] true) "Rename Deck" (by decide)

/-! ## Claim C3: markReview and the wasLeech flag -/

/-- C3 counterexample: with a current review record whose shared flag is
true, marking a review of a card whose note has no leech tag yields a
record whose flag is false — the existing flag is overwritten, not
preserved. -/
theorem markReview_wasLeech_not_preserved :
    reviewFlag ({ bugSt0 with undo := .review [bugCardA] true }).undo = some true
    ∧ noteHasTag { bugSt0 with undo := .review [bugCardA] true } bugCardB.nid "leech" = false
    ∧ reviewFlag (Collection.markReview { bugSt0 with undo := .review [bugCardA] true } bugCardB).undo
        = some false := by decide

/-- C3 amended: `markReview` appends the snapshot to the entries of an
existing review record (or starts a fresh single-entry record otherwise),
and in both cases the resulting `wasLeech` flag equals the leech status of
the note of the newly reviewed card, overwriting any existing flag. -/
theorem markReview_spec (st : ColState) (c : CardRow) (es : List CardRow) (b : Bool) :
    (st.undo = .review es b →
      (Collection.markReview st c).undo = .review (es ++ [c]) (noteHasTag st c.nid "leech"))
    ∧ ((∀ es2 b2, st.undo ≠ .review es2 b2) →
      (Collection.markReview st c).undo = .review [c] (noteHasTag st c.nid "leech")) := by
  constructor
  · intro h
    simp [Collection.markReview, h]
  · intro h
    cases hu : st.undo with
    | empty => simp [Collection.markReview, hu]
    | review es2 b2 => exact absurd hu (h es2 b2)
    | checkpoint label => simp [Collection.markReview, hu]

/-- Witness for C3 (amended) at a concrete review record. -/
theorem markReview_spec_witness :
    (Collection.markReview { bugSt0 with undo := .review [bugCardA] true } bugCardB).undo
      = .review ([bugCardA] ++ [bugCardB])
          (noteHasTag { bugSt0 with undo := .review [bugCardA] true } bugCardB.nid "leech") :=
  (markReview_spec { bugSt0 with undo := .review [bugCardA] true } bugCardB [bugCardA] true).1 rfl

/-! ## Claim C4: save and the commit decision -/

/-- C4: when the storage is clean (mutation flag clear and the modified
timestamp unchanged since the transaction began), `save` with `trx=true`
performs zero commits and zero rollbacks, and with `trx=false` it rolls
back instead of committing; when dirty, `save` stamps `col.mod` with the
caller-supplied value or the current time, commits exactly once, clears
the mutation flag, and begins a new transaction exactly when `trx` is
true. -/
theorem save_commit_spec (name : Option String) (modArg : Option Int)
    (now tnow : Int) (st : ColState) :
    ((st.db.mod || Collection.modified_after_begin st) = false →
      ((Collection.save name modArg true now tnow st).db.commits = st.db.commits
        ∧ (Collection.save name modArg true now tnow st).db.rollbacks = st.db.rollbacks)
      ∧ ((Collection.save name modArg false now tnow st).db.rollbacks = st.db.rollbacks + 1
        ∧ (Collection.save name modArg false now tnow st).db.commits = st.db.commits))
    ∧ ((st.db.mod || Collection.modified_after_begin st) = true → ∀ trx,
        (Collection.save name modArg trx now tnow st).colMod = modArg.getD now
        ∧ (Collection.save name modArg trx now tnow st).db.commits = st.db.commits + 1
        ∧ (Collection.save name modArg trx now tnow st).db.mod = false
        ∧ (Collection.save name modArg trx now tnow st).db.begins
            = st.db.begins + (if trx then 1 else 0)) := by
  constructor
  · intro h
    refine ⟨⟨?_, ?_⟩, ?_, ?_⟩ <;>
      simp [Collection.save, h, dbRollback, dbBegin, dbCommit, setColMod]
  · intro h trx
    refine ⟨?_, ?_, ?_, ?_⟩ <;> cases trx <;>
      simp [Collection.save, h, dbRollback, dbBegin, dbCommit, setColMod]

/-- Witness for C4: the clean branch at `baseSt` and the dirty branch at
`baseSt` with the mutation flag set. -/
theorem save_commit_spec_witness :
    (((Collection.save none none true 5 6 baseSt).db.commits = baseSt.db.commits
        ∧ (Collection.save none none true 5 6 baseSt).db.rollbacks = baseSt.db.rollbacks)
      ∧ ((Collection.save none none false 5 6 baseSt).db.rollbacks = baseSt.db.rollbacks + 1
        ∧ (Collection.save none none false 5 6 baseSt).db.commits = baseSt.db.commits))
    ∧ ((Collection.save none none true 5 6 { baseSt with db := { baseSt.db with mod := true } }).colMod
          = (none : Option Int).getD 5
        ∧ (Collection.save none none true 5 6 { baseSt with db := { baseSt.db with mod := true } }).db.commits
          = { baseSt with db := { baseSt.db with mod := true } }.db.commits + 1
        ∧ (Collection.save none none true 5 6 { baseSt with db := { baseSt.db with mod := true } }).db.mod
          = false
        ∧ (Collection.save none none true 5 6 { baseSt with db := { baseSt.db with mod := true } }).db.begins
          = { baseSt with db := { baseSt.db with mod := true } }.db.begins + (if true then 1 else 0)) :=
  ⟨(save_commit_spec none none 5 6 baseSt).1 (by decide),
   (save_commit_spec none none 5 6 { baseSt with db := { baseSt.db with mod := true } }).2 (by decide) true⟩

/-! ## Claim C8: the batch wasLeech flag and the leech-tag invariant -/

/-- C8 (code bug): note 1 already carries the leech tag before card A is
reviewed; reviewing card A and then card B (whose note is untagged) sets
the shared flag from card B, and the second undo — the one undoing the
review of card A — then strips the leech tag from note 1, although the
claim (and the comment in the source) requires the tag to stay.  The undo
calls succeed and restore the cards in order B, A. -/
theorem undoReview_batch_leech_bug :
    noteHasTag bugSt0 bugCardA.nid "leech" = true
    ∧ (runUndos env0 50 2 (Collection.markReview (Collection.markReview bugSt0 bugCardA) bugCardB)).map
        (fun p => p.1) = some [202, 101]
    ∧ (undoTwice env0 50 (Collection.markReview (Collection.markReview bugSt0 bugCardA) bugCardB)).map
        (fun s => noteHasTag s bugCardA.nid "leech") = some false := by decide

/-! ## Claim C9: undo on an empty record -/

/-- A review-undo never raises the `TypeError` that subscripting a `None`
record raises: its only failures are `IndexError`. -/
theorem undoReview_not_typeError (env : Env) (now : Int) (st : ColState)
    (es : List CardRow) (b : Bool) (hu : st.undo = .review es b) (stE : ColState) :
    Collection._undoReview env now st ≠ .error (.typeError, stE) := by
  unfold Collection._undoReview
  rw [hu]
  cases hl : es.getLast? with
  | none => simp [hl]
  | some c =>
    simp only [hl]
    split <;> simp

/-- C9: calling `undo` is well-defined exactly when a record is pending —
equivalently when `undoName` is not none; on an empty record the call is
the `TypeError` of subscripting `None` (a precondition violation), not an
`AnkiError` a caller could handle. -/
theorem undo_requires_pending_record (env : Env) (now : Int) (st : ColState) :
    (Collection.undo env now st = .error (.typeError, st) ↔ st.undo = .empty)
    ∧ (Collection.undoName st = none ↔ st.undo = .empty) := by
  cases hu : st.undo with
  | empty =>
    refine ⟨?_, ?_⟩ <;> simp [Collection.undo, Collection.undoName, hu]
  | review es b =>
    refine ⟨?_, ?_⟩
    · simp only [Collection.undo, hu]
      constructor
      · intro h
        rcases he : Collection._undoReview env now st with e | p
        · rw [he] at h
          simp only [Except.error.injEq] at h
          exact absurd (he.trans (by rw [h])) (undoReview_not_typeError env now st es b hu st)
        · rw [he] at h
          rcases p with ⟨cid, st1⟩
          simp at h
      · intro h
        exact absurd h (by simp)
    · simp [Collection.undoName, hu]
  | checkpoint label =>
    refine ⟨?_, ?_⟩ <;> simp [Collection.undo, Collection.undoName, hu]

/-! ## Claim C10: checkpoint undo reopens a transaction -/

/-- C10: on a checkpoint record, `undo` rolls back the open transaction,
clears the record, and immediately begins a fresh transaction, so the
collection ends inside exactly one open transaction with an empty undo
record. -/
theorem undo_checkpoint_reopens_transaction (env : Env) (now : Int) (st : ColState)
    (label : String) (h : st.undo = .checkpoint label) :
    Collection.undo env now st = .ok (none, Collection._undoOp st)
    ∧ (Collection._undoOp st).undo = .empty
    ∧ (Collection._undoOp st).db.trxDepth = 1
    ∧ (Collection._undoOp st).db.rollbacks = st.db.rollbacks + 1
    ∧ (Collection._undoOp st).db.begins = st.db.begins + 1 := by
  refine ⟨?_, ?_, ?_, ?_, ?_⟩ <;>
    simp [Collection.undo, h, Collection._undoOp, Collection.rollback,
          Collection.clearUndo, dbRollback, dbBegin]

/-- Witness for C10 at a concrete checkpoint state. -/
theorem undo_checkpoint_reopens_transaction_witness :
    Collection.undo env0 7 { baseSt with undo := .checkpoint "Suspend" }
        = .ok (none, Collection._undoOp { baseSt with undo := .checkpoint "Suspend" })
    ∧ (Collection._undoOp { baseSt with undo := .checkpoint "Suspend" }).undo = .empty
    ∧ (Collection._undoOp { baseSt with undo := .checkpoint "Suspend" }).db.trxDepth = 1
    ∧ (Collection._undoOp { baseSt with undo := .checkpoint "Suspend" }).db.rollbacks
        = { baseSt with undo := UndoRecord.checkpoint "Suspend" }.db.rollbacks + 1
    ∧ (Collection._undoOp { baseSt with undo := .checkpoint "Suspend" }).db.begins
        = { baseSt with undo := UndoRecord.checkpoint "Suspend" }.db.begins + 1 :=
  undo_checkpoint_reopens_transaction env0 7 { baseSt with undo := .checkpoint "Suspend" } "Suspend" rfl

/-! ## Claim C1: LIFO review undo -/

/-- A snapshot with a real queue value always yields a statistics bucket:
the tuple index stays in the range Python accepts. -/
theorem pyTupleIndex3_isSome_of_valid (q : Int) (h : validUndoQueue q = true) :
    (pyTupleIndex3 "new" "lrn" "rev"
      (if q == QUEUE_TYPE_DAY_LEARN_RELEARN || q == QUEUE_TYPE_PREVIEW then QUEUE_TYPE_LRN
       else q)).isSome = true := by
  simp only [validUndoQueue, QUEUE_TYPE_DAY_LEARN_RELEARN, QUEUE_TYPE_PREVIEW, QUEUE_TYPE_LRN,
    Bool.or_eq_true, Bool.and_eq_true, beq_iff_eq, decide_eq_true_eq] at h
  rcases h with (rfl | rfl) | ⟨h1, h2⟩
  · decide
  · decide
  · have h3 : q ≠ 3 ∧ q ≠ 4 → (q == 3 || q == 4) = false := by
      intro hne
      simp [hne.1, hne.2]
    interval_cases q <;> decide

/-- One review undo pops the most recent snapshot: the call succeeds,
returns the id of the popped card, and leaves a record holding the earlier
entries with the shared flag, or an empty record when none remain. -/
theorem undo_review_step (env : Env) (now : Int) (st : ColState)
    (es : List CardRow) (c : CardRow) (b : Bool)
    (hu : st.undo = .review (es ++ [c]) b) (hq : validUndoQueue c.queue = true) :
    ∃ st1, Collection.undo env now st = .ok (some c.id, st1)
      ∧ st1.undo = (if es.isEmpty then UndoRecord.empty else .review es b) := by
  obtain ⟨bucket, hb⟩ := Option.isSome_iff_exists.mp (pyTupleIndex3_isSome_of_valid c.queue hq)
  simp only [Collection.undo, Collection._undoReview, hu, List.getLast?_concat,
             List.dropLast_concat, hb]
  refine ⟨_, rfl, ?_⟩
  simp [undo_updateStats, undo_cardFlush, undo_noteDelTag, apply_ite ColState.undo,
        Collection.clearUndo]

/-- Folding further `markReview` calls over a state holding a review
record extends the entry list in order. -/
theorem markReviews_entries (cs : List CardRow) :
    ∀ st es b, st.undo = .review es b →
      ∃ b2, (markReviews st cs).undo = .review (es ++ cs) b2 := by
  induction cs with
  | nil =>
    intro st es b hu
    exact ⟨b, by simpa [markReviews] using hu⟩
  | cons c rest ih =>
    intro st es b hu
    have h1 : (Collection.markReview st c).undo
        = .review (es ++ [c]) (noteHasTag st c.nid "leech") := by
      simp [Collection.markReview, hu]
    obtain ⟨b2, h2⟩ := ih (Collection.markReview st c) (es ++ [c]) _ h1
    refine ⟨b2, ?_⟩
    simpa [markReviews, List.append_assoc] using h2

/-- Running as many undo calls as there are entries in a review record
succeeds, returns the card ids most recent first, and empties the
record. -/
theorem runUndos_review (env : Env) (now : Int) (cs : List CardRow) :
    ∀ b st, st.undo = .review cs b →
      (∀ c ∈ cs, validUndoQueue c.queue = true) → cs ≠ [] →
      ∃ stF, runUndos env now cs.length st = some ((cs.map CardRow.id).reverse, stF)
        ∧ stF.undo = .empty := by
  induction cs using List.reverseRecOn with
  | nil =>
    intro b st _ _ hne
    exact absurd rfl hne
  | append_singleton es c ih =>
    intro b st hu hq _
    obtain ⟨st1, hstep, hu1⟩ := undo_review_step env now st es c b hu (hq c (by simp))
    cases es with
    | nil =>
      refine ⟨st1, ?_, by simpa using hu1⟩
      simp [runUndos, hstep]
    | cons e es2 =>
      have hu1R : st1.undo = .review (e :: es2) b := by simpa using hu1
      obtain ⟨stF, hrun, hF⟩ :=
        ih b st1 hu1R (fun c2 hc2 => hq c2 (List.mem_append_left _ hc2)) (by simp)
      refine ⟨stF, ?_, hF⟩
      simp only [List.length_cons] at hrun
      have hlen : ((e :: es2) ++ [c]).length = (e :: es2).length + 1 := by simp
      rw [hlen, runUndos, hstep]
      simp [hrun]

/-- C1: marking reviews of the cards `cs` from a state with no pending
review record and then undoing `cs.length` times succeeds, restores the
cards in exact reverse order (each undo returns the id of the most
recently reviewed not-yet-undone card), and leaves an empty record, so
`undoName` returns none. -/
theorem review_undo_lifo (env : Env) (now : Int) (st0 : ColState) (cs : List CardRow)
    (h0 : ∀ es b, st0.undo ≠ .review es b)
    (hq : ∀ c ∈ cs, validUndoQueue c.queue = true)
    (hne : cs ≠ []) :
    ∃ stF, runUndos env now cs.length (markReviews st0 cs)
        = some ((cs.map CardRow.id).reverse, stF)
      ∧ stF.undo = .empty ∧ Collection.undoName stF = none := by
  obtain ⟨c, rest, rfl⟩ := List.exists_cons_of_ne_nil hne
  have h1 : (Collection.markReview st0 c).undo = .review [c] (noteHasTag st0 c.nid "leech") := by
    cases hu : st0.undo with
    | empty => simp [Collection.markReview, hu]
    | review es b => exact absurd hu (h0 es b)
    | checkpoint label => simp [Collection.markReview, hu]
  obtain ⟨b2, h2⟩ := markReviews_entries rest (Collection.markReview st0 c) [c] _ h1
  have h3 : (markReviews st0 (c :: rest)).undo = .review (c :: rest) b2 := by
    simpa [markReviews] using h2
  obtain ⟨stF, hrun, hF⟩ := runUndos_review env now (c :: rest) b2 _ h3 hq (by simp)
  exact ⟨stF, hrun, hF, by simp [Collection.undoName, hF]⟩

/-- Witness for C1: two concrete cards marked and undone from the base
state. -/
theorem review_undo_lifo_witness :
    ∃ stF, runUndos env0 9 ([bugCardA, bugCardB].length) (markReviews baseSt [bugCardA, bugCardB])
        = some ((([bugCardA, bugCardB]).map CardRow.id).reverse, stF)
      ∧ stF.undo = .empty ∧ Collection.undoName stF = none :=
  review_undo_lifo env0 9 baseSt [bugCardA, bugCardB]
    (fun es b h => UndoRecord.noConfusion h)
    (by decide) (by decide)

/-! ## Claims C5, C6, C7: scheduler version changes -/

/-- A stored scheduler version read successfully is one of the two
supported values. -/
theorem schedVer_ok_mem (st : ColState) (cur : Nat)
    (hcur : Collection.schedVer st = .ok cur) : cur = 1 ∨ cur = 2 := by
  simp only [Collection.schedVer] at hcur
  split at hcur
  · rename_i hmem
    obtain rfl : st.schedVerConf.getD 1 = cur := by
      simpa using hcur
    simpa [Collection.supportedSchedulerVersions] using hmem
  · simp at hcur

/-- C5: with the schema not yet diverged from the last sync, a refused
confirmation makes `changeSchedulerVer` fail with the abort-schema signal
and the collection state at the raise is exactly the input state: the
persisted scheduler version, the schema timestamp, the active scheduler,
and all storage contents are unchanged. -/
theorem changeSchedulerVer_abort_no_mutation (env : Env) (now tnow : Int)
    (st : ColState) (ver cur : Nat)
    (hcur : Collection.schedVer st = .ok cur) (hne : ver ≠ cur)
    (hsup : ver = 1 ∨ ver = 2) (hns : Collection.schemaChanged st = false) :
    Collection.changeSchedulerVer env false now tnow ver st
      = .error (.ankiError "abortSchemaMod", st) := by
  have hb : (ver == cur) = false := by simp [hne]
  have hmem : ver ∈ Collection.supportedSchedulerVersions := by
    rcases hsup with rfl | rfl <;> decide
  simp [Collection.changeSchedulerVer, hcur, hb, hmem, Collection.modSchema, hns]

/-- Witness for C5: a collection at version 1 with schema in sync, asked
to move to version 2 with confirmation refused. -/
theorem changeSchedulerVer_abort_no_mutation_witness :
    Collection.changeSchedulerVer env0 false 5 6 2 baseSt
      = .error (.ankiError "abortSchemaMod", baseSt) :=
  changeSchedulerVer_abort_no_mutation env0 5 6 baseSt 2 1 rfl (by decide)
    (Or.inr rfl) (by decide)

/-- C6: asking for the version already active returns with the state
untouched (no schema mutation, no undo-log change); asking for an
unsupported version fails with the configuration error before any
mutation, the error state being exactly the input state. -/
theorem changeSchedulerVer_noop_or_config_error (env : Env) (hookProceed : Bool)
    (now tnow : Int) (st : ColState) (ver cur : Nat)
    (hcur : Collection.schedVer st = .ok cur) :
    (ver = cur → Collection.changeSchedulerVer env hookProceed now tnow ver st = .ok st)
    ∧ (ver ≠ 1 ∧ ver ≠ 2 →
        Collection.changeSchedulerVer env hookProceed now tnow ver st
          = .error (.exception "Unsupported scheduler version", st)) := by
  constructor
  · rintro rfl
    simp [Collection.changeSchedulerVer, hcur]
  · rintro ⟨h1, h2⟩
    have hne : ver ≠ cur := by
      rcases schedVer_ok_mem st cur hcur with rfl | rfl <;> assumption
    have hb : (ver == cur) = false := by simp [hne]
    have hnotmem : ver ∉ Collection.supportedSchedulerVersions := by
      simp [Collection.supportedSchedulerVersions, h1, h2]
    simp [Collection.changeSchedulerVer, hcur, hb, hnotmem]

/-- Witness for C6: the no-op branch at the base state (already at
version 1) and the configuration-error branch at target 7. -/
theorem changeSchedulerVer_noop_or_config_error_witness :
    Collection.changeSchedulerVer env0 true 5 6 1 baseSt = .ok baseSt
    ∧ Collection.changeSchedulerVer env0 true 5 6 7 baseSt
        = .error (.exception "Unsupported scheduler version", baseSt) :=
  ⟨(changeSchedulerVer_noop_or_config_error env0 true 5 6 baseSt 1 1 rfl).1 rfl,
   (changeSchedulerVer_noop_or_config_error env0 true 5 6 baseSt 7 1 rfl).2 (by decide)⟩

/-- C7: a successful change between distinct supported versions — the
schema gate passing either because the schema already diverged or because
confirmation was granted — leaves an empty undo record whatever record
existed at the call and whatever the migration (a bulk transform over the
cards table) did, invokes the migration routine exactly once in the
direction of the target version, activates and persists the target
scheduler, and stamps the schema timestamp with the current time. -/
theorem changeSchedulerVer_success_clears_undo (env : Env) (hookProceed : Bool)
    (now tnow : Int) (st : ColState) (ver cur : Nat)
    (hcur : Collection.schedVer st = .ok cur) (hne : ver ≠ cur)
    (hsup : ver = 1 ∨ ver = 2)
    (hgate : Collection.schemaChanged st = true ∨ hookProceed = true) :
    (Collection.changeSchedulerVer env hookProceed now tnow ver st).toOption.map
        (fun stF => (stF.undo, stF.migrations, stF.activeSched, stF.schedVerConf, stF.scm))
      = some (.empty, st.migrations ++ [ver], ver, some ver, now) := by
  have hb : (ver == cur) = false := by simp [hne]
  rcases hsup with rfl | rfl <;> rcases hgate with h | h <;>
    simp only [Collection.changeSchedulerVer, hcur] <;>
    simp [hb, Collection.supportedSchedulerVersions,
          Collection.modSchema, h, Collection.save, Collection.clearUndo, moveToV1, moveToV2,
          confSetSchedVer, Collection._loadScheduler, Collection.schedVer, setScm, setColMod,
          dbCommit, dbBegin, dbRollback, Collection.modified_after_begin, Collection._markOp,
          pyTruthy] <;>
    exact ⟨_, rfl, rfl, rfl, rfl, rfl, rfl⟩

/-- Witness for C7: moving the base collection from version 1 to
version 2 with confirmation granted. -/
theorem changeSchedulerVer_success_clears_undo_witness :
    (Collection.changeSchedulerVer env0 true 5 6 2 baseSt).toOption.map
        (fun stF => (stF.undo, stF.migrations, stF.activeSched, stF.schedVerConf, stF.scm))
      = some (.empty, baseSt.migrations ++ [2], 2, some 2, 5) :=
  changeSchedulerVer_success_clears_undo env0 true 5 6 baseSt 2 1 rfl (by decide)
    (Or.inr rfl) (Or.inr rfl)
